import Mathlib

/-!
Shallow embedding of `src/robust_function.c` (yunlingz/robust-function-in-c).

The C file defines two functions built from the same goto-based
transactional pattern:

* `robust_function_get_everything_done_but_not_undone` (factory mode):
  validate the three int arguments, run the fallible steps `do_a`, `do_b`,
  `do_c`, `do_d` in order, on a step failure jump to the cleanup label of
  the previous step (the labels `cleanup_c`, `cleanup_b`, `cleanup_a` fall
  through each other, invoking `undo_c`, `undo_b`, `undo_a`), and on full
  success set `result = SUCCESS` and jump to `out`.
* `robust_function_get_everything_done_and_undone` (scoped mode): the same
  structure, except that after the core task the code sets
  `result = SUCCESS`, calls `undo_d()` inline and falls through the whole
  cleanup chain, unwinding every step before returning.

The step bodies (`var_1_is_valid`, `var_2_is_valid`, `var_3_is_valid`,
`do_a`..`do_d`, `undo_a`..`undo_d`) are undeclared external stubs in the C
file, so a run is modelled against an oracle environment recording their
results.  Each function of the embedding returns the C return value
together with the trace of calls the run performed, in order.
-/

/-- `#define FAILURE -1` (src/robust_function.c line 25). -/
def FAILURE : Int := -1

/-- `#define SUCCESS 0` (src/robust_function.c line 26). -/
def SUCCESS : Int := 0

/-- One observable call of a run: a forward step `do_a`..`do_d`, a
compensation `undo_a`..`undo_d`, or the core-computation site (the place
marked by the comment "现在开始完成本函数的核心任务", reached exactly when
all four forward steps succeeded). -/
inductive Event where
| doA
| doB
| doC
| doD
| undoA
| undoB
| undoC
| undoD
| core
deriving DecidableEq, BEq, Repr

/-- Modelled from the spec: the stub operations called by both functions
(`var_1_is_valid`, `var_2_is_valid`, `var_3_is_valid`, `do_a`..`do_d`,
`undo_a`..`undo_d`) are declared nowhere in the repository; the spec
describes them as caller-supplied fallible units of work.  One run
observes them only through their results, collected here: each validator
is a pure predicate over its int argument, each forward step yields a
success flag (the C code treats a zero return as failure, `!do_a()`), and
each compensation returns an int that both functions discard. -/
structure Env where
  var_1_is_valid : Int → Bool
  var_2_is_valid : Int → Bool
  var_3_is_valid : Int → Bool
  do_a : Bool
  do_b : Bool
  do_c : Bool
  do_d : Bool
  undo_a : Int
  undo_b : Int
  undo_c : Int
  undo_d : Int

/-- The `cleanup_a` label: call `undo_a()` (its result is discarded), then
fall through to `out`, returning `result`. -/
def cleanup_a (result : Int) (tr : List Event) : Int × List Event :=
  (result, tr ++ [Event.undoA])

/-- The `cleanup_b` label: call `undo_b()` and fall through to `cleanup_a`. -/
def cleanup_b (result : Int) (tr : List Event) : Int × List Event :=
  cleanup_a result (tr ++ [Event.undoB])

/-- The `cleanup_c` label: call `undo_c()` and fall through to `cleanup_b`. -/
def cleanup_c (result : Int) (tr : List Event) : Int × List Event :=
  cleanup_b result (tr ++ [Event.undoC])

/-- src/robust_function.c lines 37-130, factory mode: argument validation,
forward steps in order, on the failure of step i a `goto` to the cleanup
label of step i-1, and on full success `result = SUCCESS; goto out;` with
no unwind.  Besides the C return value the embedding also returns the
trace of calls performed. -/
def robust_function_get_everything_done_but_not_undone
    (env : Env) (var_1 var_2 var_3 : Int) : Int × List Event :=
  let result := FAILURE
  if !(env.var_1_is_valid var_1) || !(env.var_2_is_valid var_2)
      || !(env.var_3_is_valid var_3) then
    (result, [])
  else
    let tr := [Event.doA]
    if !env.do_a then
      (result, tr)
    else
      let tr := tr ++ [Event.doB]
      if !env.do_b then
        cleanup_a result tr
      else
        let tr := tr ++ [Event.doC]
        if !env.do_c then
          cleanup_b result tr
        else
          let tr := tr ++ [Event.doD]
          if !env.do_d then
            cleanup_c result tr
          else
            let tr := tr ++ [Event.core]
            let result := SUCCESS
            (result, tr)

/-- src/robust_function.c lines 143-188, scoped mode: identical to the
factory-mode function up to and including the core task, but after
`result = SUCCESS` the code calls `undo_d()` inline and falls through
`cleanup_c`, `cleanup_b`, `cleanup_a`, unwinding every step before
returning. -/
def robust_function_get_everything_done_and_undone
    (env : Env) (var_1 var_2 var_3 : Int) : Int × List Event :=
  let result := FAILURE
  if !(env.var_1_is_valid var_1) || !(env.var_2_is_valid var_2)
      || !(env.var_3_is_valid var_3) then
    (result, [])
  else
    let tr := [Event.doA]
    if !env.do_a then
      (result, tr)
    else
      let tr := tr ++ [Event.doB]
      if !env.do_b then
        cleanup_a result tr
      else
        let tr := tr ++ [Event.doC]
        if !env.do_c then
          cleanup_b result tr
        else
          let tr := tr ++ [Event.doD]
          if !env.do_d then
            cleanup_c result tr
          else
            let tr := tr ++ [Event.core]
            let result := SUCCESS
            cleanup_c result (tr ++ [Event.undoD])

/-- The combined argument validation of both functions: all three
validators accept (the C condition line 47 negated). -/
def validArgs (env : Env) (v1 v2 v3 : Int) : Bool :=
  env.var_1_is_valid v1 && env.var_2_is_valid v2 && env.var_3_is_valid v3

/-- Is the event a forward step call? -/
def isDo (e : Event) : Bool :=
  match e with
  | Event.doA => true
  | Event.doB => true
  | Event.doC => true
  | Event.doD => true
  | _ => false

/-- Is the event a compensation call? -/
def isUndo (e : Event) : Bool :=
  match e with
  | Event.undoA => true
  | Event.undoB => true
  | Event.undoC => true
  | Event.undoD => true
  | _ => false

/-- The compensation calls of a trace as step indices (a=0, b=1, c=2, d=3),
in call order. -/
def undoIdx (tr : List Event) : List Nat :=
  tr.filterMap fun e =>
    match e with
    | Event.undoA => some 0
    | Event.undoB => some 1
    | Event.undoC => some 2
    | Event.undoD => some 3
    | _ => none

/-- The set of step indices whose forward effect is live in trace `tr`:
the step's forward call appears, it succeeded (flag from the environment),
and its compensation has not yet been called.  The four flags are the
environment's `do_a`..`do_d` results. -/
def liveSet (da db dc dd : Bool) (tr : List Event) : List Nat :=
  (if tr.contains Event.doA && da && !(tr.contains Event.undoA) then [0] else []) ++
  (if tr.contains Event.doB && db && !(tr.contains Event.undoB) then [1] else []) ++
  (if tr.contains Event.doC && dc && !(tr.contains Event.undoC) then [2] else []) ++
  (if tr.contains Event.doD && dd && !(tr.contains Event.undoD) then [3] else [])

/-- The index set `s` is downward closed (equivalently: a contiguous
initial block `{0..k}` of the step sequence): whenever `k` is present,
every `j < k` is present too. -/
def contiguousB (s : List Nat) : Bool :=
  s.all fun k => (List.range k).all fun j => s.contains j

/-- Number of steps whose forward call appears in `tr` and succeeded; the
cursor of the run is this count minus one. -/
def succCount (da db dc dd : Bool) (tr : List Event) : Nat :=
  (if tr.contains Event.doA && da then 1 else 0) +
  (if tr.contains Event.doB && db then 1 else 0) +
  (if tr.contains Event.doC && dc then 1 else 0) +
  (if tr.contains Event.doD && dd then 1 else 0)

/-- Concrete environment: validators accept everything, all four steps
succeed, all compensations return 0. -/
def envOk : Env :=
  ⟨fun _ => true, fun _ => true, fun _ => true, true, true, true, true, 0, 0, 0, 0⟩

/-- Like `envOk` but every compensation returns 7: differs from `envOk`
only in the discarded undo results. -/
def envOk7 : Env :=
  ⟨fun _ => true, fun _ => true, fun _ => true, true, true, true, true, 7, 7, 7, 7⟩

/-- Concrete environment: validators accept, `do_a`..`do_c` succeed,
`do_d` fails. -/
def envD : Env :=
  ⟨fun _ => true, fun _ => true, fun _ => true, true, true, true, false, 0, 0, 0, 0⟩

/-- Concrete environment: validators accept, `do_a`..`do_c` succeed,
`do_d` fails, and during the unwind `undo_c` itself fails (returns 0, the
failure convention the forward steps use) while the other compensations
return 1. -/
def envC6 : Env :=
  ⟨fun _ => true, fun _ => true, fun _ => true, true, true, true, false, 1, 1, 0, 1⟩

/-- Concrete environment whose first validator rejects everything while
all steps would succeed. -/
def envBad : Env :=
  ⟨fun _ => false, fun _ => true, fun _ => true, true, true, true, true, 0, 0, 0, 0⟩

lemma robust1_eq (env : Env) (v1 v2 v3 : Int) :
    robust_function_get_everything_done_but_not_undone env v1 v2 v3 =
      if validArgs env v1 v2 v3 then
        if env.do_a then
          if env.do_b then
            if env.do_c then
              if env.do_d then
                (SUCCESS, [Event.doA, Event.doB, Event.doC, Event.doD, Event.core])
              else
                (FAILURE, [Event.doA, Event.doB, Event.doC, Event.doD,
                  Event.undoC, Event.undoB, Event.undoA])
            else
              (FAILURE, [Event.doA, Event.doB, Event.doC, Event.undoB, Event.undoA])
          else
            (FAILURE, [Event.doA, Event.doB, Event.undoA])
        else
          (FAILURE, [Event.doA])
      else
        (FAILURE, []) := by
  cases h1 : env.var_1_is_valid v1 <;> cases h2 : env.var_2_is_valid v2 <;>
    cases h3 : env.var_3_is_valid v3 <;> cases ha : env.do_a <;>
    cases hb : env.do_b <;> cases hc : env.do_c <;> cases hd : env.do_d <;>
    simp [robust_function_get_everything_done_but_not_undone, validArgs,
      cleanup_a, cleanup_b, cleanup_c, h1, h2, h3, ha, hb, hc, hd]

lemma robust2_eq (env : Env) (v1 v2 v3 : Int) :
    robust_function_get_everything_done_and_undone env v1 v2 v3 =
      if validArgs env v1 v2 v3 then
        if env.do_a then
          if env.do_b then
            if env.do_c then
              if env.do_d then
                (SUCCESS, [Event.doA, Event.doB, Event.doC, Event.doD, Event.core,
                  Event.undoD, Event.undoC, Event.undoB, Event.undoA])
              else
                (FAILURE, [Event.doA, Event.doB, Event.doC, Event.doD,
                  Event.undoC, Event.undoB, Event.undoA])
            else
              (FAILURE, [Event.doA, Event.doB, Event.doC, Event.undoB, Event.undoA])
          else
            (FAILURE, [Event.doA, Event.doB, Event.undoA])
        else
          (FAILURE, [Event.doA])
      else
        (FAILURE, []) := by
  cases h1 : env.var_1_is_valid v1 <;> cases h2 : env.var_2_is_valid v2 <;>
    cases h3 : env.var_3_is_valid v3 <;> cases ha : env.do_a <;>
    cases hb : env.do_b <;> cases hc : env.do_c <;> cases hd : env.do_d <;>
    simp [robust_function_get_everything_done_and_undone, validArgs,
      cleanup_a, cleanup_b, cleanup_c, h1, h2, h3, ha, hb, hc, hd]

lemma contiguousB_all_take (da db dc dd : Bool) (l : List Event)
    (h : ∀ n, n < l.length + 1 → contiguousB (liveSet da db dc dd (l.take n)) = true) :
    ∀ n, contiguousB (liveSet da db dc dd (l.take n)) = true := by
  intro n
  rcases Nat.lt_or_ge n (l.length + 1) with hn | hn
  · exact h n hn
  · have hl : l.take n = l := List.take_of_length_le (by omega)
    rw [hl]
    have h2 := h l.length (by omega)
    rwa [List.take_length] at h2

/-- C1: in any run of either function where validation passed, steps
0..i-1 succeeded and step i failed, the compensation calls of the trace
are exactly `undo_{i-1}, ..., undo_a`, in that decreasing order, each
exactly once; neither step i's own compensation nor any later step's is
called (if `do_a` fails there is no compensation at all, and if `do_d`
fails the order is `undo_c, undo_b, undo_a`). -/
theorem reverse_order_compensation_on_failure (env : Env) (v1 v2 v3 : Int)
    (hv : validArgs env v1 v2 v3 = true) :
    (env.do_a = false →
      (robust_function_get_everything_done_but_not_undone env v1 v2 v3).2.filter isUndo = [] ∧
      (robust_function_get_everything_done_and_undone env v1 v2 v3).2.filter isUndo = []) ∧
    (env.do_a = true → env.do_b = false →
      (robust_function_get_everything_done_but_not_undone env v1 v2 v3).2.filter isUndo =
        [Event.undoA] ∧
      (robust_function_get_everything_done_and_undone env v1 v2 v3).2.filter isUndo =
        [Event.undoA]) ∧
    (env.do_a = true → env.do_b = true → env.do_c = false →
      (robust_function_get_everything_done_but_not_undone env v1 v2 v3).2.filter isUndo =
        [Event.undoB, Event.undoA] ∧
      (robust_function_get_everything_done_and_undone env v1 v2 v3).2.filter isUndo =
        [Event.undoB, Event.undoA]) ∧
    (env.do_a = true → env.do_b = true → env.do_c = true → env.do_d = false →
      (robust_function_get_everything_done_but_not_undone env v1 v2 v3).2.filter isUndo =
        [Event.undoC, Event.undoB, Event.undoA] ∧
      (robust_function_get_everything_done_and_undone env v1 v2 v3).2.filter isUndo =
        [Event.undoC, Event.undoB, Event.undoA]) := by
  cases ha : env.do_a <;> cases hb : env.do_b <;> cases hc : env.do_c <;>
    cases hd : env.do_d <;>
    simp [robust1_eq, robust2_eq, hv, ha, hb, hc, hd, isUndo]

/-- Witness for C1: in the concrete environment where validation passes,
`do_a`..`do_c` succeed and `do_d` fails, both functions invoke exactly
`undo_c, undo_b, undo_a`. -/
theorem reverse_order_compensation_on_failure_witness :
    (robust_function_get_everything_done_but_not_undone envD 0 0 0).2.filter isUndo =
      [Event.undoC, Event.undoB, Event.undoA] ∧
    (robust_function_get_everything_done_and_undone envD 0 0 0).2.filter isUndo =
      [Event.undoC, Event.undoB, Event.undoA] :=
  (reverse_order_compensation_on_failure envD 0 0 0 rfl).2.2.2 rfl rfl rfl rfl

/-- C2: for every run of either function the returned value is `SUCCESS`
(0) exactly when all three argument validations passed and every forward
step succeeded, in which case the core computation site was reached; in
every other case the return value is `FAILURE` (-1), and the core site is
reached exactly on the success runs. -/
theorem outcome_success_iff_all_steps (env : Env) (v1 v2 v3 : Int) :
    (robust_function_get_everything_done_but_not_undone env v1 v2 v3).1 =
      (if validArgs env v1 v2 v3 && env.do_a && env.do_b && env.do_c && env.do_d
        then SUCCESS else FAILURE) ∧
    (robust_function_get_everything_done_but_not_undone env v1 v2 v3).2.contains Event.core =
      (validArgs env v1 v2 v3 && env.do_a && env.do_b && env.do_c && env.do_d) ∧
    (robust_function_get_everything_done_and_undone env v1 v2 v3).1 =
      (if validArgs env v1 v2 v3 && env.do_a && env.do_b && env.do_c && env.do_d
        then SUCCESS else FAILURE) ∧
    (robust_function_get_everything_done_and_undone env v1 v2 v3).2.contains Event.core =
      (validArgs env v1 v2 v3 && env.do_a && env.do_b && env.do_c && env.do_d) := by
  cases hv : validArgs env v1 v2 v3 <;> cases ha : env.do_a <;> cases hb : env.do_b <;>
    cases hc : env.do_c <;> cases hd : env.do_d <;>
    simp [robust1_eq, robust2_eq, hv, ha, hb, hc, hd, List.contains] <;> decide

/-- C3: when validation passes and all four steps succeed, the
factory-mode function returns `SUCCESS` with zero compensation calls (all
step effects stay live), while the scoped-mode function returns `SUCCESS`
having invoked all four compensations in full reverse order
`undo_d, undo_c, undo_b, undo_a`, each exactly once. -/
theorem mode_divergence_on_success (env : Env) (v1 v2 v3 : Int)
    (hv : validArgs env v1 v2 v3 = true) (ha : env.do_a = true)
    (hb : env.do_b = true) (hc : env.do_c = true) (hd : env.do_d = true) :
    robust_function_get_everything_done_but_not_undone env v1 v2 v3 =
      (SUCCESS, [Event.doA, Event.doB, Event.doC, Event.doD, Event.core]) ∧
    (robust_function_get_everything_done_but_not_undone env v1 v2 v3).2.filter isUndo = [] ∧
    robust_function_get_everything_done_and_undone env v1 v2 v3 =
      (SUCCESS, [Event.doA, Event.doB, Event.doC, Event.doD, Event.core,
        Event.undoD, Event.undoC, Event.undoB, Event.undoA]) := by
  simp [robust1_eq, robust2_eq, hv, ha, hb, hc, hd, isUndo]

/-- Witness for C3 at the all-success environment `envOk`. -/
theorem mode_divergence_on_success_witness :
    robust_function_get_everything_done_but_not_undone envOk 0 0 0 =
      (SUCCESS, [Event.doA, Event.doB, Event.doC, Event.doD, Event.core]) ∧
    (robust_function_get_everything_done_but_not_undone envOk 0 0 0).2.filter isUndo = [] ∧
    robust_function_get_everything_done_and_undone envOk 0 0 0 =
      (SUCCESS, [Event.doA, Event.doB, Event.doC, Event.doD, Event.core,
        Event.undoD, Event.undoC, Event.undoB, Event.undoA]) :=
  mode_divergence_on_success envOk 0 0 0 rfl rfl rfl rfl rfl

/-- C4: if any of the three validators rejects its argument, both
functions return `FAILURE` with an empty trace: no forward step and no
compensation is ever invoked. -/
theorem validation_short_circuit (env : Env) (v1 v2 v3 : Int)
    (h : env.var_1_is_valid v1 = false ∨ env.var_2_is_valid v2 = false ∨
      env.var_3_is_valid v3 = false) :
    robust_function_get_everything_done_but_not_undone env v1 v2 v3 = (FAILURE, []) ∧
    robust_function_get_everything_done_and_undone env v1 v2 v3 = (FAILURE, []) := by
  rcases h with h | h | h <;> simp [robust1_eq, robust2_eq, validArgs, h]

/-- Witness for C4: the first validator of `envBad` rejects 0, and both
functions return `FAILURE` with no calls at all. -/
theorem validation_short_circuit_witness :
    robust_function_get_everything_done_but_not_undone envBad 0 0 0 = (FAILURE, []) ∧
    robust_function_get_everything_done_and_undone envBad 0 0 0 = (FAILURE, []) :=
  validation_short_circuit envBad 0 0 0 (Or.inl rfl)

/-- C5: at every point of a run of either function (every prefix of its
trace) the set of steps with a live forward effect is a contiguous initial
block of the step sequence, never a non-contiguous subset; the
compensation calls of the whole run are strictly decreasing in step index
(so each index is compensated at most once), and when any compensation
runs at all the calls are exactly the indices from the cursor (the highest
successfully completed step) down to 0. -/
theorem contiguous_liveness_and_descending_unwind (env : Env) (v1 v2 v3 : Int) :
    (∀ n, contiguousB (liveSet env.do_a env.do_b env.do_c env.do_d
      ((robust_function_get_everything_done_but_not_undone env v1 v2 v3).2.take n)) = true) ∧
    List.Pairwise (fun a b => a > b)
      (undoIdx (robust_function_get_everything_done_but_not_undone env v1 v2 v3).2) ∧
    (undoIdx (robust_function_get_everything_done_but_not_undone env v1 v2 v3).2 ≠ [] →
      undoIdx (robust_function_get_everything_done_but_not_undone env v1 v2 v3).2 =
        (List.range (succCount env.do_a env.do_b env.do_c env.do_d
          (robust_function_get_everything_done_but_not_undone env v1 v2 v3).2)).reverse) ∧
    (∀ n, contiguousB (liveSet env.do_a env.do_b env.do_c env.do_d
      ((robust_function_get_everything_done_and_undone env v1 v2 v3).2.take n)) = true) ∧
    List.Pairwise (fun a b => a > b)
      (undoIdx (robust_function_get_everything_done_and_undone env v1 v2 v3).2) ∧
    (undoIdx (robust_function_get_everything_done_and_undone env v1 v2 v3).2 ≠ [] →
      undoIdx (robust_function_get_everything_done_and_undone env v1 v2 v3).2 =
        (List.range (succCount env.do_a env.do_b env.do_c env.do_d
          (robust_function_get_everything_done_and_undone env v1 v2 v3).2)).reverse) := by
  cases hv : validArgs env v1 v2 v3 <;> cases ha : env.do_a <;> cases hb : env.do_b <;>
    cases hc : env.do_c <;> cases hd : env.do_d <;>
    refine ⟨?_, ?_, ?_, ?_, ?_, ?_⟩ <;>
    simp only [robust1_eq, robust2_eq, hv, ha, hb, hc, hd, if_true, if_false,
      Bool.false_eq_true, ite_false, ite_true] <;>
    first
    | exact contiguousB_all_take _ _ _ _ _ (by decide)
    | decide

/-- Witness for C5: for the scoped function in the all-success
environment, the compensation indices are exactly the cursor 3 down to 0,
and liveness at the point just after `undo_c` (trace prefix of length 7)
is the contiguous block {0, 1}. -/
theorem contiguous_liveness_and_descending_unwind_witness :
    undoIdx (robust_function_get_everything_done_and_undone envOk 0 0 0).2 =
      (List.range (succCount envOk.do_a envOk.do_b envOk.do_c envOk.do_d
        (robust_function_get_everything_done_and_undone envOk 0 0 0).2)).reverse ∧
    contiguousB (liveSet envOk.do_a envOk.do_b envOk.do_c envOk.do_d
      ((robust_function_get_everything_done_and_undone envOk 0 0 0).2.take 7)) = true :=
  ⟨(contiguous_liveness_and_descending_unwind envOk 0 0 0).2.2.2.2.2 (by decide),
   (contiguous_liveness_and_descending_unwind envOk 0 0 0).2.2.2.1 7⟩

/-- C6 counterexample: in `envC6` the compensation `undo_c` fails during
the unwind (it returns 0, the same failure convention the forward steps
are tested with), yet both functions silently continue the unwind
(`undo_b` and `undo_a` are still called after `undo_c`) and return the
ordinary two-valued `FAILURE` (-1) — no value distinguishable from
ordinary Failure is ever produced, contradicting the claim. -/
theorem compensation_failure_not_propagated_cex :
    envC6.undo_c = 0 ∧
    robust_function_get_everything_done_but_not_undone envC6 0 0 0 =
      (FAILURE, [Event.doA, Event.doB, Event.doC, Event.doD,
        Event.undoC, Event.undoB, Event.undoA]) ∧
    robust_function_get_everything_done_and_undone envC6 0 0 0 =
      (FAILURE, [Event.doA, Event.doB, Event.doC, Event.doD,
        Event.undoC, Event.undoB, Event.undoA]) ∧
    FAILURE = -1 :=
  ⟨rfl, rfl, rfl, rfl⟩

/-- C6 amended: the return values of the compensations are discarded by
both functions; if a compensation fails during unwind the unwind continues
to completion and the function returns the ordinary two-valued outcome.
Concretely, on the path where `do_d` fails this holds for every
environment — in particular for any failing results of
`undo_a`..`undo_d` — with the full unwind `undo_c, undo_b, undo_a`
performed and `FAILURE` returned. -/
theorem compensation_failure_ignored (env : Env) (v1 v2 v3 : Int)
    (hv : validArgs env v1 v2 v3 = true) (ha : env.do_a = true) (hb : env.do_b = true)
    (hc : env.do_c = true) (hd : env.do_d = false) :
    robust_function_get_everything_done_but_not_undone env v1 v2 v3 =
      (FAILURE, [Event.doA, Event.doB, Event.doC, Event.doD,
        Event.undoC, Event.undoB, Event.undoA]) ∧
    robust_function_get_everything_done_and_undone env v1 v2 v3 =
      (FAILURE, [Event.doA, Event.doB, Event.doC, Event.doD,
        Event.undoC, Event.undoB, Event.undoA]) := by
  simp [robust1_eq, robust2_eq, hv, ha, hb, hc, hd]

/-- Witness for the amended C6 at `envC6`, where `undo_c` itself fails. -/
theorem compensation_failure_ignored_witness :
    robust_function_get_everything_done_but_not_undone envC6 0 0 0 =
      (FAILURE, [Event.doA, Event.doB, Event.doC, Event.doD,
        Event.undoC, Event.undoB, Event.undoA]) ∧
    robust_function_get_everything_done_and_undone envC6 0 0 0 =
      (FAILURE, [Event.doA, Event.doB, Event.doC, Event.doD,
        Event.undoC, Event.undoB, Event.undoA]) :=
  compensation_failure_ignored envC6 0 0 0 rfl rfl rfl rfl rfl

/-- C7: every run of either function reaches exactly one terminal
outcome — the returned value is either `SUCCESS` or `FAILURE` (the
embedding is a total function, so the run terminates deterministically) —
and no label or step is re-entered within a run: the trace of calls has no
duplicate event. -/
theorem terminal_outcome_no_revisit (env : Env) (v1 v2 v3 : Int) :
    ((robust_function_get_everything_done_but_not_undone env v1 v2 v3).1 = SUCCESS ∨
      (robust_function_get_everything_done_but_not_undone env v1 v2 v3).1 = FAILURE) ∧
    (robust_function_get_everything_done_but_not_undone env v1 v2 v3).2.Nodup ∧
    ((robust_function_get_everything_done_and_undone env v1 v2 v3).1 = SUCCESS ∨
      (robust_function_get_everything_done_and_undone env v1 v2 v3).1 = FAILURE) ∧
    (robust_function_get_everything_done_and_undone env v1 v2 v3).2.Nodup := by
  cases hv : validArgs env v1 v2 v3 <;> cases ha : env.do_a <;> cases hb : env.do_b <;>
    cases hc : env.do_c <;> cases hd : env.do_d <;>
    refine ⟨?_, ?_, ?_, ?_⟩ <;>
    simp only [robust1_eq, robust2_eq, hv, ha, hb, hc, hd, if_true, if_false,
      Bool.false_eq_true, ite_false, ite_true] <;>
    first
    | exact Or.inl rfl
    | exact Or.inr rfl
    | decide

/-- C8: on every failing path (validation failure or failure of any
forward step) the two functions are behaviorally identical — same return
value and the very same trace of forward and compensation calls. -/
theorem failure_path_equivalence (env : Env) (v1 v2 v3 : Int)
    (h : ¬(validArgs env v1 v2 v3 = true ∧ env.do_a = true ∧ env.do_b = true ∧
      env.do_c = true ∧ env.do_d = true)) :
    robust_function_get_everything_done_but_not_undone env v1 v2 v3 =
      robust_function_get_everything_done_and_undone env v1 v2 v3 := by
  cases hv : validArgs env v1 v2 v3 <;> cases ha : env.do_a <;> cases hb : env.do_b <;>
    cases hc : env.do_c <;> cases hd : env.do_d <;>
    simp_all [robust1_eq, robust2_eq]

/-- Witness for C8 at the environment where `do_d` fails: both functions
produce the same value and trace. -/
theorem failure_path_equivalence_witness :
    robust_function_get_everything_done_but_not_undone envD 0 0 0 =
      robust_function_get_everything_done_and_undone envD 0 0 0 :=
  failure_path_equivalence envD 0 0 0 (by decide)

/-- C9: the outcome and the trace of both functions are independent of the
return values of `undo_a`..`undo_d` (two environments agreeing on the
validators and forward-step results give identical runs), and on the
all-success path the scoped function has already set `result = SUCCESS`
before any compensation runs, so it returns `SUCCESS` whatever the four
undo calls return. -/
theorem outcome_independent_of_undo_results (env env2 : Env) (v1 v2 v3 : Int)
    (h1 : env2.var_1_is_valid = env.var_1_is_valid)
    (h2 : env2.var_2_is_valid = env.var_2_is_valid)
    (h3 : env2.var_3_is_valid = env.var_3_is_valid)
    (ha : env2.do_a = env.do_a) (hb : env2.do_b = env.do_b)
    (hc : env2.do_c = env.do_c) (hd : env2.do_d = env.do_d) :
    robust_function_get_everything_done_but_not_undone env2 v1 v2 v3 =
      robust_function_get_everything_done_but_not_undone env v1 v2 v3 ∧
    robust_function_get_everything_done_and_undone env2 v1 v2 v3 =
      robust_function_get_everything_done_and_undone env v1 v2 v3 ∧
    (validArgs env v1 v2 v3 = true → env.do_a = true → env.do_b = true →
      env.do_c = true → env.do_d = true →
      (robust_function_get_everything_done_and_undone env v1 v2 v3).1 = SUCCESS) := by
  refine ⟨?_, ?_, ?_⟩
  · simp [robust1_eq, validArgs, h1, h2, h3, ha, hb, hc, hd]
  · simp [robust2_eq, validArgs, h1, h2, h3, ha, hb, hc, hd]
  · intro hv ha2 hb2 hc2 hd2
    simp [robust2_eq, hv, ha2, hb2, hc2, hd2]

/-- Witness for C9: `envOk7` differs from `envOk` only in the undo return
values (7 instead of 0); both functions run identically, and the scoped
function returns `SUCCESS`. -/
theorem outcome_independent_of_undo_results_witness :
    robust_function_get_everything_done_but_not_undone envOk7 0 0 0 =
      robust_function_get_everything_done_but_not_undone envOk 0 0 0 ∧
    robust_function_get_everything_done_and_undone envOk7 0 0 0 =
      robust_function_get_everything_done_and_undone envOk 0 0 0 ∧
    (robust_function_get_everything_done_and_undone envOk 0 0 0).1 = SUCCESS := by
  have h := outcome_independent_of_undo_results envOk envOk7 0 0 0 rfl rfl rfl rfl rfl rfl rfl
  exact ⟨h.1, h.2.1, h.2.2 rfl rfl rfl rfl rfl⟩

/-- C10: the forward calls of any run form the in-order sequence
`do_a, do_b, do_c, do_d` truncated at the first failure: `do_a` runs
exactly when validation passed, and each later step runs exactly when
every earlier step succeeded; each forward action appears at most once and
none is invoked after a failure. -/
theorem forward_attempts_in_order (env : Env) (v1 v2 v3 : Int) :
    (robust_function_get_everything_done_but_not_undone env v1 v2 v3).2.filter isDo =
      (if validArgs env v1 v2 v3 then
        Event.doA :: (if env.do_a then
          Event.doB :: (if env.do_b then
            Event.doC :: (if env.do_c then [Event.doD] else []) else []) else [])
        else []) ∧
    (robust_function_get_everything_done_and_undone env v1 v2 v3).2.filter isDo =
      (if validArgs env v1 v2 v3 then
        Event.doA :: (if env.do_a then
          Event.doB :: (if env.do_b then
            Event.doC :: (if env.do_c then [Event.doD] else []) else []) else [])
        else []) := by
  cases hv : validArgs env v1 v2 v3 <;> cases ha : env.do_a <;> cases hb : env.do_b <;>
    cases hc : env.do_c <;> cases hd : env.do_d <;>
    refine ⟨?_, ?_⟩ <;>
    simp only [robust1_eq, robust2_eq, hv, ha, hb, hc, hd, if_true, if_false,
      Bool.false_eq_true, ite_false, ite_true] <;>
    decide
